import Mathlib

/-!
Shallow embedding of the newtype-gateway request-dispatch pipeline.

Each definition mirrors one function of the TypeScript source:
  - Router (src/router/router.ts)
  - RateLimiter (src/rate-limiter/rate-limiter.ts)
  - BaseProvider.normalizeError (src/providers/base-provider.ts)
  - AuthManager.refreshToken (src/auth/auth-manager.ts)
  - RequestHandler.parseRequest / normalizeToProviderError / stream loop
  - GatewayProxy.formatError / getHttpStatus
  - ResponseTransformer.toOpenAIChunk / formatSSE / formatSSEDone

JavaScript Date.now() is passed in explicitly as an integer parameter,
promises become explicit outcome values, and JS Map objects become
association lists with first-match lookup.
-/

namespace Gateway

/-! ## Association-list maps (embedding of JS Map / plain objects) -/

def mapGet {β : Type} : List (String × β) → String → Option β
  | [], _ => none
  | (k, v) :: rest, key => if k = key then some v else mapGet rest key

def mapSet {β : Type} : List (String × β) → String → β → List (String × β)
  | [], key, v => [(key, v)]
  | (k, w) :: rest, key, v =>
    if k = key then (key, v) :: rest else (k, w) :: mapSet rest key v

def mapDelete {β : Type} : List (String × β) → String → List (String × β)
  | [], _ => []
  | (k, w) :: rest, key =>
    if k = key then mapDelete rest key else (k, w) :: mapDelete rest key

/-! ## JavaScript values (for parseRequest, which receives untyped JSON) -/

inductive JSVal where
  | undefinedv
  | nullv
  | boolv (b : Bool)
  | num (n : Int)
  | str (s : String)
  | arr (items : List JSVal)
  | obj (fields : List (String × JSVal))

/-- JS truthiness: undefined, null, false, 0 and the empty string are falsy;
arrays and objects are always truthy. -/
def truthy : JSVal → Bool
  | .undefinedv => false
  | .nullv => false
  | .boolv b => b
  | .num n => n != 0
  | .str s => s != ""
  | .arr _ => true
  | .obj _ => true

/-- JS typeof x equals the string object exactly for null, arrays and objects. -/
def typeofObject : JSVal → Bool
  | .nullv => true
  | .arr _ => true
  | .obj _ => true
  | _ => false

def isString : JSVal → Bool
  | .str _ => true
  | _ => false

def isUndefined : JSVal → Bool
  | .undefinedv => true
  | _ => false

def isNull : JSVal → Bool
  | .nullv => true
  | _ => false

/-- Property access: obj.key is undefined when absent or when the value is
not an object (the uses in parseRequest are all guarded against null). -/
def getField : JSVal → String → JSVal
  | .obj fields, key =>
    match mapGet fields key with
    | some v => v
    | none => .undefinedv
  | _, _ => .undefinedv

/-! ## Substring test (embedding of String.prototype.includes) -/

def leadsWith : List Char → List Char → Bool
  | [], _ => true
  | _ :: _, [] => false
  | a :: as, b :: bs => a = b && leadsWith as bs

def hasSubList (pat : List Char) : List Char → Bool
  | [] => leadsWith pat []
  | b :: bs => leadsWith pat (b :: bs) || hasSubList pat bs

def jsIncludes (s pat : String) : Bool := hasSubList pat.toList s.toList

/-! ## Error model (src/types, NormalizedProviderError) -/

inductive ErrKind where
  | auth
  | rate_limit
  | service_unavailable
  | invalid_request
  | unknown
deriving DecidableEq, Repr

structure ProviderError where
  provider : String
  statusCode : Option Int
  message : String
  type : ErrKind
  retryable : Bool
deriving DecidableEq, Repr

/-- A thrown JS value as seen by catch blocks: either a ProviderError-shaped
plain object (has a type and a provider field) or an Error instance, which
carries only a message. -/
inductive Thrown where
  | providerError (e : ProviderError)
  | jsError (message : String)
deriving DecidableEq, Repr

/-- BaseProvider.normalizeError (src/providers/base-provider.ts, lines 28-49):
classify an upstream HTTP failure by its status code. -/
def normalizeError (providerName : String) (statusCode : Option Int)
    (message : String) : ProviderError :=
  let tr : ErrKind × Bool :=
    if statusCode = some 401 ∨ statusCode = some 403 then (.auth, false)
    else if statusCode = some 429 then (.rate_limit, true)
    else if statusCode = some 500 ∨ statusCode = some 502 ∨ statusCode = some 503 then
      (.service_unavailable, true)
    else if statusCode = some 400 then (.invalid_request, false)
    else (.unknown, false)
  { provider := providerName, statusCode := statusCode, message := message,
    type := tr.1, retryable := tr.2 }

/-- RequestHandler.normalizeToProviderError (lines 224-230): a value with
type and message fields passes through; anything else (in particular a plain
Error) becomes kind unknown, not retryable. -/
def normalizeToProviderError (t : Thrown) (provider : String) : ProviderError :=
  match t with
  | .providerError e => e
  | .jsError msg =>
    { provider := provider, statusCode := none, message := msg,
      type := .unknown, retryable := false }

/-- The fallback condition of the dispatch loops in RequestHandler
(if providerError.retryable and attempts < maxRetries). -/
def dispatchRetryDecision (e : ProviderError) (attempts maxRetries : Nat) : Bool :=
  e.retryable && decide (attempts < maxRetries)

/-- Wire-format error body produced by GatewayProxy.formatError
(param is always null in the source and is omitted here). -/
structure OpenAIErrorBody where
  message : String
  type : String
  code : Option String
deriving DecidableEq, Repr

/-- GatewayProxy.formatError (lines 392-411). A ProviderError-shaped object
takes the kind table; otherwise validation-message substrings select
invalid_request_error, else server_error. -/
def formatError (t : Thrown) : OpenAIErrorBody :=
  match t with
  | .providerError pe =>
    let tc : String × Option String :=
      if pe.type = .auth then ("authentication_error", some "invalid_api_key")
      else if pe.type = .rate_limit then ("rate_limit_error", some "rate_limit_exceeded")
      else if pe.type = .invalid_request then ("invalid_request_error", none)
      else if pe.type = .service_unavailable then ("server_error", some "service_unavailable")
      else ("server_error", none)
    { message := pe.message, type := tc.1, code := tc.2 }
  | .jsError msg =>
    if jsIncludes msg "required" || jsIncludes msg "must be" || jsIncludes msg "must have" then
      { message := msg, type := "invalid_request_error", code := none }
    else
      { message := msg, type := "server_error", code := none }

/-- GatewayProxy.getHttpStatus (lines 413-426). For a ProviderError-shaped
object whose kind is none of the four mapped kinds, the source falls through
to the message test with an empty message (a plain object is not an Error
instance), hence 500. -/
def getHttpStatus (t : Thrown) : Nat :=
  match t with
  | .providerError pe =>
    if pe.type = .auth then 401
    else if pe.type = .rate_limit then 429
    else if pe.type = .invalid_request then 400
    else if pe.type = .service_unavailable then 503
    else 500
  | .jsError msg =>
    if jsIncludes msg "required" || jsIncludes msg "must be" ||
       jsIncludes msg "must have" || jsIncludes msg "Unknown model" then 400
    else 500

/-! ## Router (src/router/router.ts) -/

structure ProviderModel where
  provider : String
  model : String
  priority : Int
deriving DecidableEq, Repr

/-- The alias record; the TS field named alias is aliasName here because
alias is reserved in Lean. -/
structure ModelAlias where
  aliasName : String
  providers : List ProviderModel
deriving DecidableEq, Repr

structure RouterState where
  modelAliases : List (String × ModelAlias)
  failedProviders : List (String × Int)
  failureTTL : Int
deriving DecidableEq, Repr

/-- Stable insertion step for the sort by ascending priority (JS
Array.prototype.sort with comparator a.priority - b.priority is stable). -/
def insertByPriority (x : ProviderModel) : List ProviderModel → List ProviderModel
  | [] => [x]
  | y :: ys => if x.priority ≤ y.priority then x :: y :: ys else y :: insertByPriority x ys

def sortByPriority : List ProviderModel → List ProviderModel
  | [] => []
  | x :: xs => insertByPriority x (sortByPriority xs)

/-- Router.resolveModelAlias (lines 19-32): alias table first, then the
provider/model slash form at priority 0, else an Unknown model error. -/
def resolveModelAlias (r : RouterState) (model : String) : Except String (List ProviderModel) :=
  match mapGet r.modelAliases model with
  | some a => .ok (sortByPriority a.providers)
  | none =>
    if model.contains '/' then
      match model.splitOn "/" with
      | [] => .error ("Unknown model: " ++ model)
      | p :: rest => .ok [{ provider := p, model := String.intercalate "/" rest, priority := 0 }]
    else .error ("Unknown model: " ++ model)

/-- Router.isProviderFailed (lines 72-76). -/
def isProviderFailed (r : RouterState) (provider : String) (now : Int) : Bool :=
  match mapGet r.failedProviders provider with
  | none => false
  | some timestamp => decide (now - timestamp ≤ r.failureTTL)

/-- Router.clearExpiredFailures (lines 63-70): delete entries with
now - timestamp > failureTTL. -/
def clearExpiredFailures (r : RouterState) (now : Int) : RouterState :=
  { r with failedProviders :=
      r.failedProviders.filter (fun e => decide (now - e.2 ≤ r.failureTTL)) }

/-- Router.markFailed (lines 58-61). -/
def markFailed (r : RouterState) (provider : String) (now : Int) : RouterState :=
  { r with failedProviders := mapSet r.failedProviders provider now }

/-- Router.selectProvider (lines 34-50): prune expired failures, partition
the candidates, sort both partitions by priority, prefer the available side. -/
def selectProvider (r : RouterState) (candidates : List ProviderModel) (now : Int) :
    Option ProviderModel × RouterState :=
  match candidates with
  | [] => (none, r)
  | _ =>
    let r2 := clearExpiredFailures r now
    let available := candidates.filter (fun c => ! isProviderFailed r2 c.provider now)
    let failed := candidates.filter (fun c => isProviderFailed r2 c.provider now)
    match sortByPriority available with
    | a :: _ => (some a, r2)
    | [] =>
      match sortByPriority failed with
      | f :: _ => (some f, r2)
      | [] => (none, r2)

/-- Router.getNextProvider (lines 52-56): record the failure, re-resolve the
alias, re-select. -/
def getNextProvider (r : RouterState) (model : String) (failedProvider : String)
    (now : Int) : Except String (Option ProviderModel × RouterState) :=
  let r2 := markFailed r failedProvider now
  match resolveModelAlias r2 model with
  | .error e => .error e
  | .ok candidates => .ok (selectProvider r2 candidates now)

/-! ## RateLimiter (src/rate-limiter/rate-limiter.ts) -/

structure RateLimitConfig where
  provider : String
  requestsPerMinute : Nat
  maxQueueSize : Nat
deriving DecidableEq, Repr

/-- A queued waiter; resolve/reject callbacks are identified by a number. -/
structure QueuedRequest where
  id : Nat
  enqueuedAt : Int
deriving DecidableEq, Repr

structure RateLimiterState where
  configs : List (String × RateLimitConfig)
  requestTimestamps : List (String × List Int)
  queues : List (String × List QueuedRequest)
  timers : List String
deriving DecidableEq, Repr

/-- RateLimiter constructor (lines 16-21). -/
def rateLimiterInit (configs : List RateLimitConfig) : RateLimiterState :=
  { configs := configs.map (fun c => (c.provider, c)),
    requestTimestamps := [], queues := [], timers := [] }

/-- The body of cleanWindow (lines 97-108): drop the prefix of timestamps
at or before now - 60000 (the first index with t > cutoff survives). -/
def cleanTimestamps (now : Int) (ts : List Int) : List Int :=
  ts.dropWhile (fun t => decide (t ≤ now - 60000))

/-- RateLimiter.cleanWindow: no-op when the provider has no timestamp entry. -/
def cleanWindow (s : RateLimiterState) (provider : String) (now : Int) : RateLimiterState :=
  match mapGet s.requestTimestamps provider with
  | none => s
  | some ts =>
    { s with requestTimestamps :=
        mapSet s.requestTimestamps provider (cleanTimestamps now ts) }

inductive AcquireOutcome where
  | admitted
  | queued
  | rejected (message : String)
deriving DecidableEq, Repr

/-- RateLimiter.acquire (lines 23-57). The returned outcome stands for the
promise: admitted = resolved now, queued = pending in the wait queue,
rejected = rejected with the queue-full error. -/
def acquire (s : RateLimiterState) (provider : String) (now : Int) (waiterId : Nat) :
    AcquireOutcome × RateLimiterState :=
  match mapGet s.configs provider with
  | none => (.admitted, s)
  | some config =>
    let s1 := cleanWindow s provider now
    let timestamps := (mapGet s1.requestTimestamps provider).getD []
    let s2 := { s1 with requestTimestamps := mapSet s1.requestTimestamps provider timestamps }
    let queue := (mapGet s2.queues provider).getD []
    let s3 := { s2 with queues := mapSet s2.queues provider queue }
    if timestamps.length < config.requestsPerMinute then
      (.admitted,
       { s3 with requestTimestamps := mapSet s3.requestTimestamps provider (timestamps ++ [now]) })
    else if queue.length < config.maxQueueSize then
      (.queued,
       { s3 with
         queues := mapSet s3.queues provider (queue ++ [{ id := waiterId, enqueuedAt := now }]),
         timers := if s3.timers.contains provider then s3.timers else s3.timers ++ [provider] })
    else
      (.rejected ("Rate limit exceeded: queue full for provider " ++ provider), s3)

structure RateLimitStatus where
  requestsInWindow : Nat
  queueLength : Nat
  nextAvailableSlot : Int
deriving DecidableEq, Repr

/-- RateLimiter.getStatus (lines 59-80). -/
def getStatus (s : RateLimiterState) (provider : String) (now : Int) : RateLimitStatus :=
  match mapGet s.configs provider with
  | none => { requestsInWindow := 0, queueLength := 0, nextAvailableSlot := 0 }
  | some config =>
    let s1 := cleanWindow s provider now
    let timestamps := (mapGet s1.requestTimestamps provider).getD []
    let queue := (mapGet s1.queues provider).getD []
    let nextAvailableSlot : Int :=
      if timestamps.length ≥ config.requestsPerMinute ∧ timestamps.length > 0 then
        timestamps.headD 0 + 60000
      else 0
    { requestsInWindow := timestamps.length, queueLength := queue.length,
      nextAvailableSlot := nextAvailableSlot }

/-- RateLimiter.dispose (lines 82-95): stop every timer, reject every queued
waiter with the disposed error, empty every queue. The first component lists
the rejections performed, as pairs of waiter id and error message. -/
def dispose (s : RateLimiterState) : List (Nat × String) × RateLimiterState :=
  let rejections := s.queues.flatMap
    (fun pq => pq.2.map (fun w => (w.id, "Rate limiter disposed for provider " ++ pq.1)))
  let cleared := { s with
    timers := ([] : List String),
    queues := s.queues.map (fun pq => (pq.1, ([] : List QueuedRequest))) }
  (rejections, cleared)

/-- Sequential acquire calls for one provider at the given times (waiter ids
are irrelevant for admitted calls and fixed to 0). -/
def acquireRun (s : RateLimiterState) (provider : String) : List Int →
    List AcquireOutcome × RateLimiterState
  | [] => ([], s)
  | t :: rest =>
    let step := acquire s provider t 0
    let tail := acquireRun step.2 provider rest
    (step.1 :: tail.1, tail.2)

/-! ## AuthManager.refreshToken (src/auth/auth-manager.ts, lines 143-192) -/

structure TokenSet where
  provider : String
  accessToken : String
  refreshToken : Option String
  expiresAt : Int
deriving DecidableEq, Repr

structure ProviderConfig where
  enabled : Bool
  clientId : Option String
  clientSecret : Option String
  authEndpoint : Option String
  tokenEndpoint : Option String
  apiEndpoint : String
deriving DecidableEq, Repr

/-- JS truthiness of an optional string field: absent or empty is falsy. -/
def optTruthy : Option String → Bool
  | none => false
  | some s => s != ""

/-- The token-endpoint response body used by refreshToken. -/
structure RefreshResponse where
  access_token : String
  refresh_token : Option String
  expires_in : Int
deriving DecidableEq, Repr

/-- AuthManager.refreshToken. The network POST is passed in as postResult;
an ok value is a 2xx token-endpoint body and an error value any axios
failure. The function returns the surfaced result together with the token
store after its saveToken or deleteToken side effect. -/
def refreshToken (configs : List (String × ProviderConfig))
    (store : List (String × TokenSet)) (provider : String) (now : Int)
    (postResult : Except String RefreshResponse) :
    Except String TokenSet × List (String × TokenSet) :=
  match mapGet configs provider with
  | none => (.error ("Provider " ++ provider ++ " not configured"), store)
  | some config =>
    if ! config.enabled then
      (.error ("Provider " ++ provider ++ " is disabled"), store)
    else
      match mapGet store provider with
      | none => (.error ("No token found for provider " ++ provider), store)
      | some currentToken =>
        if ! optTruthy currentToken.refreshToken then
          (.error ("No refresh token available for provider " ++ provider), store)
        else if ! optTruthy config.tokenEndpoint || ! optTruthy config.clientId then
          (.error ("Provider " ++ provider ++ " missing token endpoint or client ID"), store)
        else
          match postResult with
          | .ok resp =>
            let newRefresh : Option String :=
              match resp.refresh_token with
              | some s => if s = "" then currentToken.refreshToken else some s
              | none => currentToken.refreshToken
            let tokenSet : TokenSet :=
              { provider := provider, accessToken := resp.access_token,
                refreshToken := newRefresh,
                expiresAt := now + resp.expires_in * 1000 }
            (.ok tokenSet, mapSet store provider tokenSet)
          | .error e =>
            (.error ("Failed to refresh token for " ++ provider ++ ": " ++ e ++
                     ". Please re-authenticate."),
             mapDelete store provider)

/-! ## RequestHandler.parseRequest (handler, lines 46-69) -/

/-- The per-message loop body of parseRequest. -/
def validateMessages : List JSVal → Except String Unit
  | [] => .ok ()
  | msg :: rest =>
    if ! (truthy msg && typeofObject msg) then
      .error "Each message must be an object"
    else if ! (truthy (getField msg "role") && isString (getField msg "role")) then
      .error "Each message must have a role"
    else if isUndefined (getField msg "content") && ! truthy (getField msg "tool_calls") &&
            ! truthy (getField msg "function_call") then
      .error "Each message must have content, tool_calls, or function_call"
    else validateMessages rest

/-- RequestHandler.parseRequest: on success the body itself is the parsed
request. -/
def parseRequest (body : JSVal) : Except String JSVal :=
  if ! (truthy body && typeofObject body) then
    .error "Request body must be a JSON object"
  else if ! (truthy (getField body "model") && isString (getField body "model")) then
    .error "model is required and must be a string"
  else
    match getField body "messages" with
    | .arr (m :: ms) =>
      match validateMessages (m :: ms) with
      | .ok _ => .ok body
      | .error e => .error e
    | _ => .error "messages is required and must be a non-empty array"

/-! ## ResponseTransformer (toOpenAIChunk, formatSSE, formatSSEDone) -/

structure ToolCallFn where
  name : Option String
  arguments : Option String
deriving DecidableEq, Repr

structure ProviderToolCallChunk where
  index : Int
  id : Option String
  type : Option String
  function : Option ToolCallFn
deriving DecidableEq, Repr

structure FunctionCallChunk where
  name : Option String
  arguments : Option String
deriving DecidableEq, Repr

structure ProviderStreamChunk where
  content : Option String
  finishReason : Option String
  toolCallChunk : Option ProviderToolCallChunk
  functionCallChunk : Option FunctionCallChunk
deriving DecidableEq, Repr

structure ToolCallChunkOut where
  index : Int
  id : Option String
  type : Option String
  function : Option ToolCallFn
deriving DecidableEq, Repr

structure ChunkDelta where
  content : Option String
  tool_calls : Option (List ToolCallChunkOut)
  function_call : Option FunctionCallChunk
deriving DecidableEq, Repr

structure ChunkChoice where
  index : Int
  delta : ChunkDelta
  finish_reason : Option String
deriving DecidableEq, Repr

structure ChatCompletionChunk where
  id : String
  object : String
  created : Int
  model : String
  choices : List ChunkChoice
deriving DecidableEq, Repr

/-- ResponseTransformer.toOpenAIChunk (lines 67-109): the chunk id is the
caller-supplied streamId; created is Math.floor(Date.now()/1000). An unknown
or empty finishReason stays null. -/
def toOpenAIChunk (chunk : ProviderStreamChunk) (model : String) (streamId : String)
    (nowMs : Int) : ChatCompletionChunk :=
  let delta : ChunkDelta :=
    { content := chunk.content,
      tool_calls :=
        match chunk.toolCallChunk with
        | some tcc =>
          some [{ index := tcc.index, id := tcc.id, type := tcc.type,
                  function := tcc.function }]
        | none => none,
      function_call := chunk.functionCallChunk }
  let finish_reason : Option String :=
    match chunk.finishReason with
    | some fr =>
      if fr = "" then none
      else if fr = "stop" then some "stop"
      else if fr = "length" then some "length"
      else if fr = "tool_calls" then some "tool_calls"
      else if fr = "content_filter" then some "content_filter"
      else if fr = "function_call" then some "function_call"
      else none
    | none => none
  { id := streamId, object := "chat.completion.chunk",
    created := Int.fdiv nowMs 1000, model := model,
    choices := [{ index := 0, delta := delta, finish_reason := finish_reason }] }

/-- String escaping of JSON.stringify for the characters that occur in this
development (backslash, quote and common control characters). -/
def jsonEscapeChar (c : Char) : String :=
  if c = '\\' then "\\\\"
  else if c = '"' then "\\\""
  else if c = '\n' then "\\n"
  else if c = '\r' then "\\r"
  else if c = '\t' then "\\t"
  else String.singleton c

def jsonStr (s : String) : String :=
  "\"" ++ String.join (s.toList.map jsonEscapeChar) ++ "\""

/-- JSON.stringify on the delta object: fields that are undefined are
omitted, in the insertion order content, tool_calls, function_call. -/
def jsonOfToolCallFn (f : ToolCallFn) : String :=
  let parts :=
    (match f.name with
     | some n => ["\"name\":" ++ jsonStr n]
     | none => []) ++
    (match f.arguments with
     | some a => ["\"arguments\":" ++ jsonStr a]
     | none => [])
  "\x7b" ++ String.intercalate "," parts ++ "\x7d"

def jsonOfToolCallOut (t : ToolCallChunkOut) : String :=
  let parts :=
    ["\"index\":" ++ toString t.index] ++
    (match t.id with
     | some i => ["\"id\":" ++ jsonStr i]
     | none => []) ++
    (match t.type with
     | some ty => ["\"type\":" ++ jsonStr ty]
     | none => []) ++
    (match t.function with
     | some f => ["\"function\":" ++ jsonOfToolCallFn f]
     | none => [])
  "\x7b" ++ String.intercalate "," parts ++ "\x7d"

def jsonOfDelta (d : ChunkDelta) : String :=
  let parts :=
    (match d.content with
     | some c => ["\"content\":" ++ jsonStr c]
     | none => []) ++
    (match d.tool_calls with
     | some ts => ["\"tool_calls\":[" ++ String.intercalate "," (ts.map jsonOfToolCallOut) ++ "]"]
     | none => []) ++
    (match d.function_call with
     | some f => ["\"function_call\":" ++ jsonOfToolCallFn { name := f.name, arguments := f.arguments }]
     | none => [])
  "\x7b" ++ String.intercalate "," parts ++ "\x7d"

def jsonOfOptStr : Option String → String
  | some s => jsonStr s
  | none => "null"

def jsonOfChoice (c : ChunkChoice) : String :=
  "\x7b\"index\":" ++ toString c.index ++ ",\"delta\":" ++ jsonOfDelta c.delta ++
  ",\"finish_reason\":" ++ jsonOfOptStr c.finish_reason ++ ",\"logprobs\":null\x7d"

/-- JSON.stringify of a ChatCompletionChunk, in the field order of the
object literal the source builds. -/
def jsonOfChunk (c : ChatCompletionChunk) : String :=
  "\x7b\"id\":" ++ jsonStr c.id ++ ",\"object\":" ++ jsonStr c.object ++
  ",\"created\":" ++ toString c.created ++ ",\"model\":" ++ jsonStr c.model ++
  ",\"choices\":[" ++ String.intercalate "," (c.choices.map jsonOfChoice) ++ "]\x7d"

/-- ResponseTransformer.formatSSE (line 153-155). -/
def formatSSE (chunk : ChatCompletionChunk) : String :=
  "data: " ++ jsonOfChunk chunk ++ "\n\n"

/-- ResponseTransformer.formatSSEDone (line 157-159). -/
def formatSSEDone : String := "data: [DONE]\n\n"

/-- The frames yielded by RequestHandler.handleCompletionStream on the
success path (lines 194-202): one formatSSE frame per upstream chunk with
the single streamId generated at stream start, then formatSSEDone. -/
def streamFrames (chunks : List ProviderStreamChunk) (model streamId : String)
    (nowMs : Int) : List String :=
  chunks.map (fun c => formatSSE (toOpenAIChunk c model streamId nowMs)) ++ [formatSSEDone]

/-- Boolean success test for Except results. -/
def exceptOk {α : Type} : Except String α → Bool
  | .ok _ => true
  | .error _ => false

/-! ## Helper lemmas about the map and list embeddings -/

theorem mapGet_mapSet_self {β : Type} (m : List (String × β)) (k : String) (v : β) :
    mapGet (mapSet m k v) k = some v := by
  induction m with
  | nil => simp [mapSet, mapGet]
  | cons e rest ih =>
    by_cases h : e.1 = k
    · simp [mapSet, h, mapGet]
    · simp [mapSet, h, mapGet, ih]

theorem mapGet_mapSet_ne {β : Type} (m : List (String × β)) (k key : String) (v : β)
    (h : key ≠ k) : mapGet (mapSet m k v) key = mapGet m key := by
  induction m with
  | nil => simp [mapSet, mapGet, Ne.symm h]
  | cons e rest ih =>
    obtain ⟨k0, w⟩ := e
    by_cases he : k0 = k
    · subst he
      simp [mapSet, mapGet, Ne.symm h]
    · simp only [mapSet, he, if_false, mapGet]
      by_cases hk : k0 = key
      · simp [hk]
      · simp [hk, ih]

theorem mapGet_mapDelete_self {β : Type} (m : List (String × β)) (k : String) :
    mapGet (mapDelete m k) k = none := by
  induction m with
  | nil => simp [mapDelete, mapGet]
  | cons e rest ih =>
    by_cases h : e.1 = k
    · simp [mapDelete, h, ih]
    · simp [mapDelete, h, mapGet, ih]

/-- After setting key k and then filtering with a predicate that keeps
(k, v), looking up k still finds v: every entry in front of the k entry has
a different key, and filtering preserves order. -/
theorem mapGet_filter_mapSet_self {β : Type} (m : List (String × β)) (k : String) (v : β)
    (P : String × β → Bool) (hP : P (k, v) = true) :
    mapGet ((mapSet m k v).filter P) k = some v := by
  induction m with
  | nil => simp [mapSet, List.filter, hP, mapGet]
  | cons e rest ih =>
    by_cases h : e.1 = k
    · simp [mapSet, h, List.filter, hP, mapGet]
    · simp only [mapSet, h, if_false]
      rw [List.filter_cons]
      by_cases hPe : P e = true
      · simp only [hPe, if_true, mapGet, h, if_false]
        exact ih
      · simp only [hPe, if_false]
        exact ih

theorem dropWhile_all_false {p : Int → Bool} :
    ∀ (l : List Int), (∀ a ∈ l, p a = false) → l.dropWhile p = l := by
  intro l h
  induction l with
  | nil => rfl
  | cons a rest _ =>
    rw [List.dropWhile_cons_of_neg]
    simp [h a (by simp)]

theorem cleanTimestamps_id (now : Int) (ts : List Int)
    (h : ∀ t ∈ ts, ¬ (t ≤ now - 60000)) : cleanTimestamps now ts = ts := by
  unfold cleanTimestamps
  exact dropWhile_all_false ts (fun a ha => by simp [h a ha])

/-! ## Helper lemmas about the priority sort -/

theorem insertByPriority_ne_nil (x : ProviderModel) (l : List ProviderModel) :
    insertByPriority x l ≠ [] := by
  cases l with
  | nil => simp [insertByPriority]
  | cons y ys =>
    unfold insertByPriority
    split <;> simp

theorem mem_insertByPriority (a x : ProviderModel) (l : List ProviderModel) :
    a ∈ insertByPriority x l ↔ a = x ∨ a ∈ l := by
  induction l with
  | nil => simp [insertByPriority]
  | cons y ys ih =>
    unfold insertByPriority
    split
    · simp [or_comm, or_left_comm, or_assoc]
    · simp [ih]
      tauto

theorem mem_sortByPriority (a : ProviderModel) (l : List ProviderModel) :
    a ∈ sortByPriority l ↔ a ∈ l := by
  induction l with
  | nil => simp [sortByPriority]
  | cons x xs ih =>
    simp [sortByPriority, mem_insertByPriority, ih]

theorem sortByPriority_ne_nil (l : List ProviderModel) (h : l ≠ []) :
    sortByPriority l ≠ [] := by
  cases l with
  | nil => exact absurd rfl h
  | cons x xs => simpa [sortByPriority] using insertByPriority_ne_nil x (sortByPriority xs)

theorem sortByPriority_head_min :
    ∀ (l : List ProviderModel) (m : ProviderModel) (t : List ProviderModel),
    sortByPriority l = m :: t → m ∈ l ∧ ∀ c ∈ l, m.priority ≤ c.priority := by
  intro l
  induction l with
  | nil => intro m t h; simp [sortByPriority] at h
  | cons x xs ih =>
    intro m t h
    rw [sortByPriority] at h
    cases hs : sortByPriority xs with
    | nil =>
      have hxs : xs = [] := by
        by_contra hne
        exact sortByPriority_ne_nil xs hne hs
      rw [hs] at h
      unfold insertByPriority at h
      cases h
      subst hxs
      simp
    | cons mh mt =>
      obtain ⟨hmem, hmin⟩ := ih mh mt hs
      rw [hs] at h
      unfold insertByPriority at h
      split at h
      · rename_i hle
        cases h
        constructor
        · simp
        · intro c hc
          rcases List.mem_cons.mp hc with hc | hc
          · subst hc; exact le_refl _
          · exact le_trans hle (hmin c hc)
      · rename_i hgt
        cases h
        constructor
        · exact List.mem_cons_of_mem _ hmem
        · intro c hc
          rcases List.mem_cons.mp hc with hc | hc
          · subst hc; exact le_of_lt (lt_of_not_le hgt)
          · exact hmin c hc

/-! ## Analysis of Router.selectProvider -/

theorem selectProvider_available (r : RouterState) (cs : List ProviderModel) (now : Int)
    (hav : ∃ c ∈ cs,
      isProviderFailed (clearExpiredFailures r now) c.provider now = false) :
    ∃ m, (selectProvider r cs now).1 = some m ∧ m ∈ cs ∧
      isProviderFailed (clearExpiredFailures r now) m.provider now = false ∧
      ∀ c ∈ cs, isProviderFailed (clearExpiredFailures r now) c.provider now = false →
        m.priority ≤ c.priority := by
  obtain ⟨c0, hc0, hc0f⟩ := hav
  cases cs with
  | nil => simp at hc0
  | cons a l =>
    have havail : c0 ∈ (a :: l).filter
        (fun c => ! isProviderFailed (clearExpiredFailures r now) c.provider now) := by
      rw [List.mem_filter]
      exact ⟨hc0, by simp [hc0f]⟩
    have hne : (a :: l).filter
        (fun c => ! isProviderFailed (clearExpiredFailures r now) c.provider now) ≠ [] :=
      fun hnil => by rw [hnil] at havail; simp at havail
    cases hs : sortByPriority ((a :: l).filter
        (fun c => ! isProviderFailed (clearExpiredFailures r now) c.provider now)) with
    | nil => exact absurd hs (sortByPriority_ne_nil _ hne)
    | cons m t =>
      obtain ⟨hmem, hmin⟩ := sortByPriority_head_min _ m t hs
      rw [List.mem_filter] at hmem
      refine ⟨m, ?_, hmem.1, by simpa using hmem.2, ?_⟩
      · simp only [selectProvider, hs]
      · intro c hc hcf
        exact hmin c (List.mem_filter.mpr ⟨hc, by simp [hcf]⟩)

theorem selectProvider_all_failed (r : RouterState) (cs : List ProviderModel) (now : Int)
    (hne : cs ≠ [])
    (hall : ∀ c ∈ cs,
      isProviderFailed (clearExpiredFailures r now) c.provider now = true) :
    ∃ m, (selectProvider r cs now).1 = some m ∧ m ∈ cs ∧
      ∀ c ∈ cs, m.priority ≤ c.priority := by
  cases cs with
  | nil => exact absurd rfl hne
  | cons a l =>
    have hav_nil : (a :: l).filter
        (fun c => ! isProviderFailed (clearExpiredFailures r now) c.provider now) = [] := by
      rw [List.filter_eq_nil_iff]
      intro c hc
      simp [hall c hc]
    have hfl_eq : (a :: l).filter
        (fun c => isProviderFailed (clearExpiredFailures r now) c.provider now) = a :: l := by
      rw [List.filter_eq_self]
      intro c hc
      exact hall c hc
    cases hs : sortByPriority ((a :: l).filter
        (fun c => isProviderFailed (clearExpiredFailures r now) c.provider now)) with
    | nil =>
      rw [hfl_eq] at hs
      exact absurd hs (sortByPriority_ne_nil _ (by simp))
    | cons m t =>
      rw [hfl_eq] at hs
      obtain ⟨hmem, hmin⟩ := sortByPriority_head_min _ m t hs
      refine ⟨m, ?_, hmem, hmin⟩
      simp only [selectProvider, hav_nil, sortByPriority, hfl_eq, hs]

/-- After markFailed the marked provider is failed in the TTL-pruned map,
at any instant within the TTL of the mark. -/
theorem isProviderFailed_after_mark (r : RouterState) (p : String) (now nowq : Int)
    (hTTL : nowq - now ≤ r.failureTTL) :
    isProviderFailed (clearExpiredFailures (markFailed r p now) nowq) p nowq = true := by
  unfold isProviderFailed clearExpiredFailures markFailed
  simp only
  rw [mapGet_filter_mapSet_self r.failedProviders p now _ (by simp [hTTL])]
  simp [hTTL]

theorem isProviderFailed_mark_self (r : RouterState) (p : String) (now nowq : Int)
    (hTTL : nowq - now ≤ r.failureTTL) :
    isProviderFailed (markFailed r p now) p nowq = true := by
  unfold isProviderFailed markFailed
  simp only
  rw [mapGet_mapSet_self]
  simp [hTTL]

/-! ## Claim theorems: Router -/

/-- Claim C4: selectProvider returns null on an empty candidate list; when
some candidate's provider is absent from the TTL-pruned failure map it
returns such a candidate of lowest priority; when every candidate is failed
it returns the lowest-priority failed candidate — in particular it never
returns a failed candidate while a non-failed one exists. -/
theorem routerSelectC4 (r : RouterState) (cs : List ProviderModel) (now : Int) :
    (cs = [] → (selectProvider r cs now).1 = none) ∧
    ((∃ c ∈ cs, isProviderFailed (clearExpiredFailures r now) c.provider now = false) →
      ∃ m, (selectProvider r cs now).1 = some m ∧ m ∈ cs ∧
        isProviderFailed (clearExpiredFailures r now) m.provider now = false ∧
        ∀ c ∈ cs, isProviderFailed (clearExpiredFailures r now) c.provider now = false →
          m.priority ≤ c.priority) ∧
    (cs ≠ [] →
      (∀ c ∈ cs, isProviderFailed (clearExpiredFailures r now) c.provider now = true) →
      ∃ m, (selectProvider r cs now).1 = some m ∧ m ∈ cs ∧
        ∀ c ∈ cs, m.priority ≤ c.priority) := by
  refine ⟨?_, selectProvider_available r cs now, selectProvider_all_failed r cs now⟩
  intro h
  subst h
  rfl

/-- Witness for C4 at a concrete two-candidate list with one failed
provider. -/
theorem routerSelectC4_witness :
    ∃ m, (selectProvider
        { modelAliases := [], failedProviders := [("gemini", 0)], failureTTL := 60000 }
        [⟨"openai", "gpt-4", 1⟩, ⟨"gemini", "gemini-pro", 2⟩] 0).1 = some m ∧
      m ∈ [(⟨"openai", "gpt-4", 1⟩ : ProviderModel), ⟨"gemini", "gemini-pro", 2⟩] ∧
      isProviderFailed (clearExpiredFailures
        { modelAliases := [], failedProviders := [("gemini", 0)], failureTTL := 60000 } 0)
        m.provider 0 = false ∧
      ∀ c ∈ [(⟨"openai", "gpt-4", 1⟩ : ProviderModel), ⟨"gemini", "gemini-pro", 2⟩],
        isProviderFailed (clearExpiredFailures
          { modelAliases := [], failedProviders := [("gemini", 0)], failureTTL := 60000 } 0)
          c.provider 0 = false → m.priority ≤ c.priority :=
  (routerSelectC4
    { modelAliases := [], failedProviders := [("gemini", 0)], failureTTL := 60000 }
    [⟨"openai", "gpt-4", 1⟩, ⟨"gemini", "gemini-pro", 2⟩] 0).2.1
    ⟨⟨"openai", "gpt-4", 1⟩, by decide, by decide⟩

/-- Counterexample to claim C3 as stated: with both candidates of the alias
already failed, getNextProvider returns the very provider that was just
reported failed (the lowest-priority failed candidate). -/
theorem routerNoRepeatC3_counterexample :
    (getNextProvider
      { modelAliases := [("gpt",
          { aliasName := "gpt",
            providers := [⟨"openai", "gpt-4", 1⟩, ⟨"gemini", "gemini-pro", 2⟩] })],
        failedProviders := [("gemini", 0)], failureTTL := 60000 }
      "gpt" "openai" 0).toOption.map (fun x => x.1.map ProviderModel.provider) =
    some (some "openai") := by decide

/-- Claim C3 (amended): getNextProvider(alias, p) returns a candidate whose
provider differs from p provided at least one candidate of the alias is not
in the TTL-pruned failure map after p is marked; when every candidate is
failed it can return p itself. -/
theorem routerNoRepeatC3 (r : RouterState) (model p : String) (now : Int)
    (hTTL : 0 ≤ r.failureTTL) (cs : List ProviderModel)
    (hres : resolveModelAlias (markFailed r p now) model = Except.ok cs)
    (hav : ∃ c ∈ cs, isProviderFailed
      (clearExpiredFailures (markFailed r p now) now) c.provider now = false) :
    ∃ m r2, getNextProvider r model p now = Except.ok (some m, r2) ∧
      m ∈ cs ∧ m.provider ≠ p := by
  obtain ⟨m, hsel, hmem, hmf, _⟩ := selectProvider_available (markFailed r p now) cs now hav
  refine ⟨m, (selectProvider (markFailed r p now) cs now).2, ?_, hmem, ?_⟩
  · have hpair : selectProvider (markFailed r p now) cs now =
        (some m, (selectProvider (markFailed r p now) cs now).2) := by
      rw [← hsel]
    simp only [getNextProvider]
    rw [hres]
    exact congrArg Except.ok hpair
  · intro hpp
    rw [hpp] at hmf
    rw [isProviderFailed_after_mark r p now now (by simp [hTTL])] at hmf
    simp at hmf

/-- Witness for the amended C3: marking openai leaves gemini available, and
the returned candidate is gemini. -/
theorem routerNoRepeatC3_witness :
    ∃ m r2, getNextProvider
      { modelAliases := [("gpt",
          { aliasName := "gpt",
            providers := [⟨"openai", "gpt-4", 1⟩, ⟨"gemini", "gemini-pro", 2⟩] })],
        failedProviders := [], failureTTL := 60000 }
      "gpt" "openai" 0 = Except.ok (some m, r2) ∧
      m ∈ [(⟨"openai", "gpt-4", 1⟩ : ProviderModel), ⟨"gemini", "gemini-pro", 2⟩] ∧
      m.provider ≠ "openai" :=
  routerNoRepeatC3
    { modelAliases := [("gpt",
        { aliasName := "gpt",
          providers := [⟨"openai", "gpt-4", 1⟩, ⟨"gemini", "gemini-pro", 2⟩] })],
      failedProviders := [], failureTTL := 60000 }
    "gpt" "openai" 0 (by decide)
    [⟨"openai", "gpt-4", 1⟩, ⟨"gemini", "gemini-pro", 2⟩] (by rfl)
    ⟨⟨"gemini", "gemini-pro", 2⟩, by decide, by decide⟩

/-- Claim C10: the failure memory is keyed by provider name alone. After
markFailed p (the state change getNextProvider performs for its alias),
p tests as failed at any instant within the TTL, and selectProvider on ANY
candidate list — whatever alias it came from — avoids candidates of
provider p whenever some non-failed candidate exists. -/
theorem routerFailureSharedC10 (r : RouterState) (p : String) (now nowq : Int)
    (hTTL : nowq - now ≤ r.failureTTL) :
    isProviderFailed (markFailed r p now) p nowq = true ∧
    (∀ cs : List ProviderModel,
      (∃ c ∈ cs, isProviderFailed
        (clearExpiredFailures (markFailed r p now) nowq) c.provider nowq = false) →
      ∀ m, (selectProvider (markFailed r p now) cs nowq).1 = some m →
        m.provider ≠ p) := by
  refine ⟨isProviderFailed_mark_self r p now nowq hTTL, ?_⟩
  intro cs hav m hm hpp
  obtain ⟨m2, hsel, _, hmf, _⟩ := selectProvider_available (markFailed r p now) cs nowq hav
  rw [hm] at hsel
  cases hsel
  rw [hpp] at hmf
  rw [isProviderFailed_after_mark r p now nowq hTTL] at hmf
  simp at hmf

/-- Witness for C10: openai marked at time 0 counts as failed at time 60000
for a candidate list of a different alias, and the selected candidate is not
openai. -/
theorem routerFailureSharedC10_witness :
    isProviderFailed
      (markFailed { modelAliases := [], failedProviders := [], failureTTL := 60000 }
        "openai" 0) "openai" 60000 = true ∧
    (⟨"gemini", "gemini-flash", 2⟩ : ProviderModel).provider ≠ "openai" :=
  ⟨(routerFailureSharedC10
      { modelAliases := [], failedProviders := [], failureTTL := 60000 }
      "openai" 0 60000 (by decide)).1,
   (routerFailureSharedC10
      { modelAliases := [], failedProviders := [], failureTTL := 60000 }
      "openai" 0 60000 (by decide)).2
     [⟨"gemini", "gemini-flash", 2⟩, ⟨"openai", "gpt-4", 1⟩]
     ⟨⟨"gemini", "gemini-flash", 2⟩, by decide, by decide⟩
     ⟨"gemini", "gemini-flash", 2⟩ (by decide)⟩

/-! ## Claim theorems: provider error normalization (C2) -/

/-- Counterexample to claim C2 as stated: 504 is a 5xx status, yet
normalizeError classifies it as unknown and not retryable, because the
source tests only the exact statuses 500, 502 and 503. -/
theorem normalizeErrorC2_counterexample :
    (500 ≤ 504 ∧ 504 < 600) ∧
    (normalizeError "openai" (some 504) "Gateway Timeout").type = ErrKind.unknown ∧
    (normalizeError "openai" (some 504) "Gateway Timeout").type ≠ ErrKind.service_unavailable ∧
    (normalizeError "openai" (some 504) "Gateway Timeout").retryable = false := by
  decide

/-- Claim C2 (amended): 401/403 map to auth (not retryable), 429 to
rate_limit (retryable), exactly 500, 502 and 503 — not every 5xx — to
service_unavailable (retryable), 400 to invalid_request (not retryable) and
every other status, or a missing status, to unknown (not retryable);
provider, status and message pass through unchanged. -/
theorem normalizeErrorC2 (name msg : String) (st : Option Int) :
    (normalizeError name st msg).provider = name ∧
    (normalizeError name st msg).message = msg ∧
    (normalizeError name st msg).statusCode = st ∧
    ((st = some 401 ∨ st = some 403) →
      (normalizeError name st msg).type = ErrKind.auth ∧
      (normalizeError name st msg).retryable = false) ∧
    (st = some 429 →
      (normalizeError name st msg).type = ErrKind.rate_limit ∧
      (normalizeError name st msg).retryable = true) ∧
    ((st = some 500 ∨ st = some 502 ∨ st = some 503) →
      (normalizeError name st msg).type = ErrKind.service_unavailable ∧
      (normalizeError name st msg).retryable = true) ∧
    (st = some 400 →
      (normalizeError name st msg).type = ErrKind.invalid_request ∧
      (normalizeError name st msg).retryable = false) ∧
    (¬ (st = some 401 ∨ st = some 403 ∨ st = some 429 ∨ st = some 500 ∨
        st = some 502 ∨ st = some 503 ∨ st = some 400) →
      (normalizeError name st msg).type = ErrKind.unknown ∧
      (normalizeError name st msg).retryable = false) := by
  refine ⟨rfl, rfl, rfl, ?_, ?_, ?_, ?_, ?_⟩
  · rintro (h | h) <;> subst h <;> exact ⟨rfl, rfl⟩
  · rintro h; subst h; exact ⟨rfl, rfl⟩
  · rintro (h | h | h) <;> subst h <;> exact ⟨rfl, rfl⟩
  · rintro h; subst h; exact ⟨rfl, rfl⟩
  · intro h
    have h1 : ¬ (st = some 401 ∨ st = some 403) := fun hc => h (by tauto)
    have h2 : ¬ st = some 429 := fun hc => h (by tauto)
    have h3 : ¬ (st = some 500 ∨ st = some 502 ∨ st = some 503) := fun hc => h (by tauto)
    have h4 : ¬ st = some 400 := fun hc => h (by tauto)
    constructor <;> simp [normalizeError, h1, h2, h3, h4]

/-- Witness for the amended C2 at status 429. -/
theorem normalizeErrorC2_witness :
    (normalizeError "openai" (some 429) "Too Many Requests").type = ErrKind.rate_limit ∧
    (normalizeError "openai" (some 429) "Too Many Requests").retryable = true :=
  (normalizeErrorC2 "openai" "Too Many Requests" (some 429)).2.2.2.2.1 rfl

/-! ## Claim theorems: queue-full error classification (C1) -/

/-- Counterexample to claim C1 as stated: with the window at capacity (1 of
1 timestamp) and the queue at capacity (1 of 1 waiter), acquire rejects with
the queue-full Error, but since that Error carries no type field the
dispatcher normalizes it to kind unknown, and the HTTP layer reports
server_error with status 500 — not rate_limit_error with 429. -/
theorem queueFullC1_counterexample :
    (acquire
      { configs := [("openai", { provider := "openai", requestsPerMinute := 1, maxQueueSize := 1 })],
        requestTimestamps := [("openai", [90000])],
        queues := [("openai", [{ id := 7, enqueuedAt := 95000 }])],
        timers := ["openai"] }
      "openai" 100000 5).1 =
      AcquireOutcome.rejected "Rate limit exceeded: queue full for provider openai" ∧
    (normalizeToProviderError
      (Thrown.jsError "Rate limit exceeded: queue full for provider openai")
      "openai").type ≠ ErrKind.rate_limit ∧
    (formatError (Thrown.providerError (normalizeToProviderError
      (Thrown.jsError "Rate limit exceeded: queue full for provider openai")
      "openai"))).type ≠ "rate_limit_error" ∧
    getHttpStatus (Thrown.providerError (normalizeToProviderError
      (Thrown.jsError "Rate limit exceeded: queue full for provider openai")
      "openai")) ≠ 429 := by
  decide

/-- Claim C1 (amended): with the pruned window already holding
requestsPerMinute timestamps and the queue already holding maxQueueSize
waiters, acquire fails with the queue-full Error; the dispatcher normalizes
it to kind unknown with retryable=false, so no provider fallback is
attempted, and the HTTP error formatter classifies it as wire type
server_error with HTTP status 500. -/
theorem queueFullC1 (s : RateLimiterState) (provider : String)
    (cfg : RateLimitConfig) (ts : List Int) (q : List QueuedRequest)
    (now : Int) (wid attempts maxRetries : Nat)
    (hc : mapGet s.configs provider = some cfg)
    (ht : mapGet s.requestTimestamps provider = some ts)
    (hq : mapGet s.queues provider = some q)
    (hwin : ∀ t ∈ ts, ¬ (t ≤ now - 60000))
    (hlen : ts.length = cfg.requestsPerMinute)
    (hql : q.length = cfg.maxQueueSize) :
    (acquire s provider now wid).1 =
      AcquireOutcome.rejected ("Rate limit exceeded: queue full for provider " ++ provider) ∧
    (normalizeToProviderError
      (Thrown.jsError ("Rate limit exceeded: queue full for provider " ++ provider))
      provider).retryable = false ∧
    (normalizeToProviderError
      (Thrown.jsError ("Rate limit exceeded: queue full for provider " ++ provider))
      provider).type = ErrKind.unknown ∧
    dispatchRetryDecision
      (normalizeToProviderError
        (Thrown.jsError ("Rate limit exceeded: queue full for provider " ++ provider))
        provider) attempts maxRetries = false ∧
    (formatError (Thrown.providerError (normalizeToProviderError
      (Thrown.jsError ("Rate limit exceeded: queue full for provider " ++ provider))
      provider))).type = "server_error" ∧
    getHttpStatus (Thrown.providerError (normalizeToProviderError
      (Thrown.jsError ("Rate limit exceeded: queue full for provider " ++ provider))
      provider)) = 500 := by
  have hts_clean : cleanTimestamps now ts = ts := cleanTimestamps_id now ts hwin
  have h1 : ¬ (ts.length < cfg.requestsPerMinute) := by rw [hlen]; exact Nat.lt_irrefl _
  have h2 : ¬ (q.length < cfg.maxQueueSize) := by rw [hql]; exact Nat.lt_irrefl _
  refine ⟨?_, rfl, rfl, rfl, rfl, rfl⟩
  simp only [acquire, hc, cleanWindow, ht, hts_clean, mapGet_mapSet_self,
    Option.getD_some, hq, h1, h2, if_false]

/-- Witness for the amended C1 at a concrete saturated limiter state. -/
theorem queueFullC1_witness :
    (acquire
      { configs := [("openai", { provider := "openai", requestsPerMinute := 1, maxQueueSize := 1 })],
        requestTimestamps := [("openai", [90000])],
        queues := [("openai", [{ id := 7, enqueuedAt := 95000 }])],
        timers := ["openai"] }
      "openai" 100000 5).1 =
      AcquireOutcome.rejected ("Rate limit exceeded: queue full for provider " ++ "openai") ∧
    (normalizeToProviderError
      (Thrown.jsError ("Rate limit exceeded: queue full for provider " ++ "openai"))
      "openai").retryable = false ∧
    (normalizeToProviderError
      (Thrown.jsError ("Rate limit exceeded: queue full for provider " ++ "openai"))
      "openai").type = ErrKind.unknown ∧
    dispatchRetryDecision
      (normalizeToProviderError
        (Thrown.jsError ("Rate limit exceeded: queue full for provider " ++ "openai"))
        "openai") 1 3 = false ∧
    (formatError (Thrown.providerError (normalizeToProviderError
      (Thrown.jsError ("Rate limit exceeded: queue full for provider " ++ "openai"))
      "openai"))).type = "server_error" ∧
    getHttpStatus (Thrown.providerError (normalizeToProviderError
      (Thrown.jsError ("Rate limit exceeded: queue full for provider " ++ "openai"))
      "openai")) = 500 :=
  queueFullC1
    { configs := [("openai", { provider := "openai", requestsPerMinute := 1, maxQueueSize := 1 })],
      requestTimestamps := [("openai", [90000])],
      queues := [("openai", [{ id := 7, enqueuedAt := 95000 }])],
      timers := ["openai"] }
    "openai" { provider := "openai", requestsPerMinute := 1, maxQueueSize := 1 }
    [90000] [{ id := 7, enqueuedAt := 95000 }] 100000 5 1 3
    rfl rfl rfl (by decide) rfl rfl

/-! ## Claim theorems: dispose (C5) -/

/-- Counterexample to claim C5 as stated: the limiter keeps no disposed
flag, so after dispose — which here rejected a queued waiter — a fresh
acquire on a configured provider with window capacity is admitted. -/
theorem disposeC5_counterexample :
    (dispose
      { configs := [("openai", { provider := "openai", requestsPerMinute := 1, maxQueueSize := 1 })],
        requestTimestamps := [("openai", [])],
        queues := [("openai", [{ id := 1, enqueuedAt := 0 }])],
        timers := ["openai"] }).1 =
      [(1, "Rate limiter disposed for provider openai")] ∧
    (acquire
      (dispose
        { configs := [("openai", { provider := "openai", requestsPerMinute := 1, maxQueueSize := 1 })],
          requestTimestamps := [("openai", [])],
          queues := [("openai", [{ id := 1, enqueuedAt := 0 }])],
          timers := ["openai"] }).2
      "openai" 0 2).1 = AcquireOutcome.admitted := by
  decide

/-- Claim C5 (amended): dispose stops every running release ticker and
rejects every waiter queued in any provider's wait queue with the
"Rate limiter disposed" error, emptying all queues; however no disposed
flag is recorded, so a later acquire call can still complete with admission
(shown by the counterexample). -/
theorem disposeC5 (s : RateLimiterState) :
    (dispose s).2.timers = [] ∧
    (∀ e ∈ (dispose s).2.queues, e.2 = ([] : List QueuedRequest)) ∧
    (∀ e ∈ s.queues, ∀ w ∈ e.2,
      (w.id, "Rate limiter disposed for provider " ++ e.1) ∈ (dispose s).1) := by
  refine ⟨rfl, ?_, ?_⟩
  · intro e he
    simp only [dispose, List.mem_map] at he
    obtain ⟨pq, _, hpq⟩ := he
    rw [← hpq]
  · intro e he w hw
    simp only [dispose, List.mem_flatMap]
    exact ⟨e, he, List.mem_map.mpr ⟨w, hw, rfl⟩⟩

/-- Witness for the amended C5 at a state with one queued waiter. -/
theorem disposeC5_witness :
    (dispose
      { configs := [],
        requestTimestamps := [],
        queues := [("gemini", [{ id := 3, enqueuedAt := 5 }])],
        timers := ["gemini"] }).2.timers = [] ∧
    ((3 : Nat), "Rate limiter disposed for provider " ++ "gemini") ∈
      (dispose
        { configs := [],
          requestTimestamps := [],
          queues := [("gemini", [{ id := 3, enqueuedAt := 5 }])],
          timers := ["gemini"] }).1 :=
  ⟨(disposeC5
      { configs := [], requestTimestamps := [],
        queues := [("gemini", [{ id := 3, enqueuedAt := 5 }])],
        timers := ["gemini"] }).1,
   (disposeC5
      { configs := [], requestTimestamps := [],
        queues := [("gemini", [{ id := 3, enqueuedAt := 5 }])],
        timers := ["gemini"] }).2.2
     ("gemini", [{ id := 3, enqueuedAt := 5 }]) (by decide)
     { id := 3, enqueuedAt := 5 } (by decide)⟩

/-! ## Claim theorems: window count and status (C7) -/

/-- Running acquire repeatedly on a provider whose window still has room
admits every call and appends the call times to the window, leaving the
queue empty and no ticker running. -/
theorem acquireRun_admits (C : List (String × RateLimitConfig)) (provider : String)
    (cfg : RateLimitConfig) (hC : mapGet C provider = some cfg) (now : Int) :
    ∀ (rest acc : List Int),
      acc.length + rest.length ≤ cfg.requestsPerMinute →
      (∀ a ∈ acc, a ≤ now ∧ now - a < 60000) →
      (∀ t ∈ rest, t ≤ now ∧ now - t < 60000) →
      acquireRun
        { configs := C, requestTimestamps := [(provider, acc)],
          queues := [(provider, [])], timers := [] } provider rest =
        (rest.map (fun _ => AcquireOutcome.admitted),
         { configs := C, requestTimestamps := [(provider, acc ++ rest)],
           queues := [(provider, [])], timers := [] }) := by
  intro rest
  induction rest with
  | nil =>
    intro acc _ _ _
    simp [acquireRun]
  | cons t rest ih =>
    intro acc hlen hacc hrest
    have hbt : t ≤ now ∧ now - t < 60000 := hrest t (by simp)
    have hclean : cleanTimestamps t acc = acc := by
      apply cleanTimestamps_id
      intro a ha
      have h1 := hacc a ha
      omega
    have hlt : acc.length < cfg.requestsPerMinute := by
      simp only [List.length_cons] at hlen
      omega
    have hstep : acquire
        { configs := C, requestTimestamps := [(provider, acc)],
          queues := [(provider, [])], timers := [] } provider t 0 =
        (AcquireOutcome.admitted,
         { configs := C, requestTimestamps := [(provider, acc ++ [t])],
           queues := [(provider, [])], timers := [] }) := by
      simp [acquire, hC, cleanWindow, mapGet, mapSet, hclean, hlt]
    simp only [acquireRun, hstep]
    rw [ih (acc ++ [t]) (by simp only [List.length_append, List.length_cons,
        List.length_nil, List.length_singleton] at hlen ⊢; omega)
      (by intro a ha
          rcases List.mem_append.mp ha with h | h
          · exact hacc a h
          · rw [List.mem_singleton] at h
            subst h
            exact hbt)
      (fun a ha => hrest a (List.mem_cons_of_mem _ ha))]
    simp

/-- Claim C7: from a fresh limiter, after exactly N immediately admitted
acquire calls (N ≤ requestsPerMinute, all within the last 60 s of the query
time), getStatus reports requestsInWindow = N and an empty queue;
nextAvailableSlot is 0 while the window is under capacity and
oldestTimestamp + 60000 once the count has reached requestsPerMinute. -/
theorem windowCountC7 (configs : List RateLimitConfig) (provider : String)
    (cfg : RateLimitConfig) (times : List Int) (now : Int)
    (hC : mapGet (rateLimiterInit configs).configs provider = some cfg)
    (hN : times.length ≤ cfg.requestsPerMinute)
    (hbound : ∀ t ∈ times, t ≤ now ∧ now - t < 60000) :
    (∀ o ∈ (acquireRun (rateLimiterInit configs) provider times).1,
      o = AcquireOutcome.admitted) ∧
    (getStatus (acquireRun (rateLimiterInit configs) provider times).2 provider now
      ).requestsInWindow = times.length ∧
    (getStatus (acquireRun (rateLimiterInit configs) provider times).2 provider now
      ).queueLength = 0 ∧
    (times.length < cfg.requestsPerMinute →
      (getStatus (acquireRun (rateLimiterInit configs) provider times).2 provider now
        ).nextAvailableSlot = 0) ∧
    (times.length = cfg.requestsPerMinute → 0 < times.length →
      (getStatus (acquireRun (rateLimiterInit configs) provider times).2 provider now
        ).nextAvailableSlot = times.headD 0 + 60000) := by
  have hcleannow : cleanTimestamps now times = times := by
    apply cleanTimestamps_id
    intro a ha
    have := hbound a ha
    omega
  simp only [rateLimiterInit] at hC
  cases times with
  | nil =>
    refine ⟨by simp [acquireRun], ?_, ?_, ?_, ?_⟩ <;>
      simp [acquireRun, getStatus, rateLimiterInit, hC, cleanWindow, mapGet]
  | cons t rest =>
    have hbt : t ≤ now ∧ now - t < 60000 := hbound t (by simp)
    have hpos : 0 < cfg.requestsPerMinute := by
      simp only [List.length_cons] at hN
      omega
    have hstep0 : acquire (rateLimiterInit configs) provider t 0 =
        (AcquireOutcome.admitted,
         { configs := (rateLimiterInit configs).configs,
           requestTimestamps := [(provider, [t])],
           queues := [(provider, [])], timers := [] }) := by
      simp [acquire, hC, cleanWindow, rateLimiterInit, mapGet, mapSet, hpos]
    have hrun : acquireRun (rateLimiterInit configs) provider (t :: rest) =
        (AcquireOutcome.admitted :: rest.map (fun _ => AcquireOutcome.admitted),
         { configs := (rateLimiterInit configs).configs,
           requestTimestamps := [(provider, t :: rest)],
           queues := [(provider, [])], timers := [] }) := by
      simp only [acquireRun, hstep0]
      rw [acquireRun_admits (rateLimiterInit configs).configs provider cfg hC now rest [t]
        (by simp only [List.length_cons] at hN; simp; omega)
        (by intro a ha
            rw [List.mem_singleton] at ha
            subst ha
            exact hbt)
        (fun a ha => hbound a (List.mem_cons_of_mem _ ha))]
      simp
    rw [hrun]
    have hstat : getStatus
        { configs := (rateLimiterInit configs).configs,
          requestTimestamps := [(provider, t :: rest)],
          queues := [(provider, [])], timers := [] } provider now =
        { requestsInWindow := (t :: rest).length, queueLength := 0,
          nextAvailableSlot :=
            if (t :: rest).length ≥ cfg.requestsPerMinute ∧ (t :: rest).length > 0 then
              (t :: rest).headD 0 + 60000
            else 0 } := by
      simp [getStatus, rateLimiterInit, hC, cleanWindow, mapGet, mapSet, hcleannow]
    rw [hstat]
    refine ⟨by simp, rfl, rfl, ?_, ?_⟩
    · intro hlt
      have hneg : ¬ ((t :: rest).length ≥ cfg.requestsPerMinute ∧ (t :: rest).length > 0) := by
        intro hcon
        omega
      rw [if_neg hneg]
    · intro heq hgt
      have hyes : (t :: rest).length ≥ cfg.requestsPerMinute ∧ (t :: rest).length > 0 :=
        ⟨by omega, hgt⟩
      rw [if_pos hyes]

/-- Witness for C7: two admitted calls against a 3-per-minute limit leave a
window of 2 and nextAvailableSlot 0. -/
theorem windowCountC7_witness :
    (getStatus (acquireRun
      (rateLimiterInit [{ provider := "openai", requestsPerMinute := 3, maxQueueSize := 5 }])
      "openai" [1000, 2000]).2 "openai" 2000).requestsInWindow = 2 ∧
    (getStatus (acquireRun
      (rateLimiterInit [{ provider := "openai", requestsPerMinute := 3, maxQueueSize := 5 }])
      "openai" [1000, 2000]).2 "openai" 2000).nextAvailableSlot = 0 :=
  ⟨(windowCountC7 [{ provider := "openai", requestsPerMinute := 3, maxQueueSize := 5 }]
      "openai" { provider := "openai", requestsPerMinute := 3, maxQueueSize := 5 }
      [1000, 2000] 2000 rfl (by decide) (by decide)).2.1,
   (windowCountC7 [{ provider := "openai", requestsPerMinute := 3, maxQueueSize := 5 }]
      "openai" { provider := "openai", requestsPerMinute := 3, maxQueueSize := 5 }
      [1000, 2000] 2000 rfl (by decide) (by decide)).2.2.2.1 (by decide)⟩

/-! ## Claim theorems: refreshToken (C8) -/

/-- Claim C8: with a configured, enabled provider (token endpoint and client
id present) and a stored TokenSet carrying a refresh token: a successful
token-endpoint response stores and returns a TokenSet with the new access
token, the returned refresh token if one (non-empty) was returned and the
old one otherwise, and expiresAt = now + expires_in*1000; any refresh
failure deletes the stored entry for the provider and surfaces the error. -/
theorem refreshTokenC8 (configs : List (String × ProviderConfig))
    (store : List (String × TokenSet)) (provider : String) (now : Int)
    (config : ProviderConfig) (currentToken : TokenSet)
    (hc : mapGet configs provider = some config)
    (hen : config.enabled = true)
    (htok : mapGet store provider = some currentToken)
    (href : optTruthy currentToken.refreshToken = true)
    (hte : optTruthy config.tokenEndpoint = true)
    (hci : optTruthy config.clientId = true) :
    (∀ resp : RefreshResponse,
      ∃ tokenSet : TokenSet,
        (refreshToken configs store provider now (Except.ok resp)).1 = Except.ok tokenSet ∧
        tokenSet.provider = provider ∧
        tokenSet.accessToken = resp.access_token ∧
        tokenSet.expiresAt = now + resp.expires_in * 1000 ∧
        (optTruthy resp.refresh_token = true →
          tokenSet.refreshToken = resp.refresh_token) ∧
        (optTruthy resp.refresh_token = false →
          tokenSet.refreshToken = currentToken.refreshToken) ∧
        mapGet (refreshToken configs store provider now (Except.ok resp)).2 provider =
          some tokenSet) ∧
    (∀ e : String,
      (refreshToken configs store provider now (Except.error e)).1 =
        Except.error ("Failed to refresh token for " ++ provider ++ ": " ++ e ++
          ". Please re-authenticate.") ∧
      mapGet (refreshToken configs store provider now (Except.error e)).2 provider =
        none) := by
  constructor
  · intro resp
    refine ⟨{ provider := provider, accessToken := resp.access_token,
              refreshToken :=
                match resp.refresh_token with
                | some s => if s = "" then currentToken.refreshToken else some s
                | none => currentToken.refreshToken,
              expiresAt := now + resp.expires_in * 1000 }, ?_, rfl, rfl, rfl, ?_, ?_, ?_⟩
    · simp [refreshToken, hc, hen, htok, href, hte, hci]
    · cases hrt : resp.refresh_token with
      | none => intro h; simp [optTruthy, hrt] at h
      | some s =>
        intro h
        have hs : ¬ s = "" := by simpa [optTruthy] using h
        simp [hs]
    · cases hrt : resp.refresh_token with
      | none => intro _; simp [hrt]
      | some s =>
        intro h
        have hs : s = "" := by simpa [optTruthy] using h
        simp [hs]
    · have h2 : (refreshToken configs store provider now (Except.ok resp)).2 =
          mapSet store provider
            { provider := provider, accessToken := resp.access_token,
              refreshToken :=
                match resp.refresh_token with
                | some s => if s = "" then currentToken.refreshToken else some s
                | none => currentToken.refreshToken,
              expiresAt := now + resp.expires_in * 1000 } := by
        simp [refreshToken, hc, hen, htok, href, hte, hci]
      rw [h2, mapGet_mapSet_self]
  · intro e
    constructor
    · simp [refreshToken, hc, hen, htok, href, hte, hci]
    · have h2 : (refreshToken configs store provider now (Except.error e)).2 =
          mapDelete store provider := by
        simp [refreshToken, hc, hen, htok, href, hte, hci]
      rw [h2, mapGet_mapDelete_self]

/-- Witness for C8: a concrete refresh with no refresh token in the response
retains the old refresh token; the instantiated success clause. -/
theorem refreshTokenC8_witness :
    ∃ tokenSet : TokenSet,
      (refreshToken
        [("openai", { enabled := true, clientId := some "cid", clientSecret := none,
                      authEndpoint := none, tokenEndpoint := some "https://token",
                      apiEndpoint := "https://api" })]
        [("openai", { provider := "openai", accessToken := "old-acc",
                      refreshToken := some "r1", expiresAt := 0 })]
        "openai" 1000
        (Except.ok { access_token := "new-acc", refresh_token := none,
                     expires_in := 3600 })).1 = Except.ok tokenSet ∧
      tokenSet.provider = "openai" ∧
      tokenSet.accessToken = ({ access_token := "new-acc", refresh_token := none,
                                expires_in := 3600 } : RefreshResponse).access_token ∧
      tokenSet.expiresAt = 1000 + ({ access_token := "new-acc", refresh_token := none,
                                     expires_in := 3600 } : RefreshResponse).expires_in * 1000 ∧
      (optTruthy ({ access_token := "new-acc", refresh_token := none,
                    expires_in := 3600 } : RefreshResponse).refresh_token = true →
        tokenSet.refreshToken = ({ access_token := "new-acc", refresh_token := none,
                                   expires_in := 3600 } : RefreshResponse).refresh_token) ∧
      (optTruthy ({ access_token := "new-acc", refresh_token := none,
                    expires_in := 3600 } : RefreshResponse).refresh_token = false →
        tokenSet.refreshToken = ({ provider := "openai", accessToken := "old-acc",
                                   refreshToken := some "r1",
                                   expiresAt := 0 } : TokenSet).refreshToken) ∧
      mapGet (refreshToken
        [("openai", { enabled := true, clientId := some "cid", clientSecret := none,
                      authEndpoint := none, tokenEndpoint := some "https://token",
                      apiEndpoint := "https://api" })]
        [("openai", { provider := "openai", accessToken := "old-acc",
                      refreshToken := some "r1", expiresAt := 0 })]
        "openai" 1000
        (Except.ok { access_token := "new-acc", refresh_token := none,
                     expires_in := 3600 })).2 "openai" = some tokenSet :=
  (refreshTokenC8
    [("openai", { enabled := true, clientId := some "cid", clientSecret := none,
                  authEndpoint := none, tokenEndpoint := some "https://token",
                  apiEndpoint := "https://api" })]
    [("openai", { provider := "openai", accessToken := "old-acc",
                  refreshToken := some "r1", expiresAt := 0 })]
    "openai" 1000
    { enabled := true, clientId := some "cid", clientSecret := none,
      authEndpoint := none, tokenEndpoint := some "https://token",
      apiEndpoint := "https://api" }
    { provider := "openai", accessToken := "old-acc",
      refreshToken := some "r1", expiresAt := 0 }
    rfl rfl rfl (by decide) (by decide) (by decide)).1
    { access_token := "new-acc", refresh_token := none, expires_in := 3600 }

/-! ## Claim theorems: SSE framing (C9) -/

/-- Claim C9: on the success path of handleCompletionStream, every frame
before the last is the string data-colon-space followed by the JSON of a
chunk and terminated by a blank line, the final frame is exactly the DONE
sentinel frame, and the id of every chunk equals the single streamId
generated at stream start. -/
theorem sseFramingC9 (chunks : List ProviderStreamChunk) (model streamId : String)
    (nowMs : Int) :
    (∀ frame ∈ (streamFrames chunks model streamId nowMs).dropLast,
      ∃ chunk ∈ chunks,
        frame = "data: " ++ jsonOfChunk (toOpenAIChunk chunk model streamId nowMs) ++ "\n\n" ∧
        (toOpenAIChunk chunk model streamId nowMs).id = streamId) ∧
    (streamFrames chunks model streamId nowMs).getLast? = some "data: [DONE]\n\n" := by
  constructor
  · intro frame hframe
    rw [streamFrames, List.dropLast_concat] at hframe
    obtain ⟨chunk, hmem, hfe⟩ := List.mem_map.mp hframe
    exact ⟨chunk, hmem, hfe.symm, rfl⟩
  · rw [streamFrames, List.getLast?_concat]
    rfl

/-- Witness for C9 with a single concrete content chunk. -/
theorem sseFramingC9_witness :
    (∃ chunk ∈ [({ content := some "Hello", finishReason := none, toolCallChunk := none,
                   functionCallChunk := none } : ProviderStreamChunk)],
      formatSSE (toOpenAIChunk
        { content := some "Hello", finishReason := none, toolCallChunk := none,
          functionCallChunk := none } "gpt-4" "chatcmpl-abc" 1700000000000) =
        "data: " ++ jsonOfChunk (toOpenAIChunk chunk "gpt-4" "chatcmpl-abc" 1700000000000) ++
          "\n\n" ∧
      (toOpenAIChunk chunk "gpt-4" "chatcmpl-abc" 1700000000000).id = "chatcmpl-abc") ∧
    (streamFrames
      [{ content := some "Hello", finishReason := none, toolCallChunk := none,
         functionCallChunk := none }] "gpt-4" "chatcmpl-abc" 1700000000000).getLast? =
      some "data: [DONE]\n\n" :=
  ⟨(sseFramingC9
      [{ content := some "Hello", finishReason := none, toolCallChunk := none,
         functionCallChunk := none }] "gpt-4" "chatcmpl-abc" 1700000000000).1
     (formatSSE (toOpenAIChunk
        { content := some "Hello", finishReason := none, toolCallChunk := none,
          functionCallChunk := none } "gpt-4" "chatcmpl-abc" 1700000000000))
     (by simp [streamFrames]),
   (sseFramingC9
      [{ content := some "Hello", finishReason := none, toolCallChunk := none,
         functionCallChunk := none }] "gpt-4" "chatcmpl-abc" 1700000000000).2⟩

/-! ## Claim theorems: parseRequest validation (C6) -/

/-- The acceptance condition parseRequest actually enforces per message:
a truthy value of typeof object, a truthy string role, and not (content
undefined with neither a truthy tool_calls nor a truthy function_call) —
equivalently, content defined (null allowed) or truthy tool_calls or
truthy function_call. -/
def messageAccepted (m : JSVal) : Bool :=
  (truthy m && typeofObject m) &&
  ((truthy (getField m "role") && isString (getField m "role")) &&
   ! (isUndefined (getField m "content") && ! truthy (getField m "tool_calls") &&
      ! truthy (getField m "function_call")))

/-- The acceptance condition parseRequest actually enforces on the body. -/
def requestAccepted (body : JSVal) : Bool :=
  (truthy body && typeofObject body) &&
  ((truthy (getField body "model") && isString (getField body "model")) &&
   (match getField body "messages" with
    | .arr l => ! l.isEmpty && l.all messageAccepted
    | _ => false))

theorem exceptOk_ok {α : Type} (a : α) : exceptOk (Except.ok a : Except String α) = true := rfl

theorem exceptOk_error {α : Type} (e : String) :
    exceptOk (Except.error e : Except String α) = false := rfl

theorem validateMessages_all (l : List JSVal) :
    exceptOk (validateMessages l) = l.all messageAccepted := by
  induction l with
  | nil => rfl
  | cons m rest ih =>
    cases h1 : (truthy m && typeofObject m) with
    | false => simp [validateMessages, messageAccepted, h1, exceptOk_error]
    | true =>
      cases h2 : (truthy (getField m "role") && isString (getField m "role")) with
      | false => simp [validateMessages, messageAccepted, h1, h2, exceptOk_error]
      | true =>
        cases h3 : (isUndefined (getField m "content") && ! truthy (getField m "tool_calls") &&
            ! truthy (getField m "function_call")) with
        | true => simp [validateMessages, messageAccepted, h1, h2, h3, exceptOk_error]
        | false => simp [validateMessages, messageAccepted, h1, h2, h3, ih]

/-- Modelled from the claim wording of C6 (refinement reference only):
a body is valid when it is an object with a non-empty string model, a
non-empty messages array, and every message is an object with a string role
and at least one of a NON-NULL content, tool_calls, or function_call. -/
def specMessageValid (m : JSVal) : Bool :=
  typeofObject m && ! isNull m && isString (getField m "role") &&
  ((! isUndefined (getField m "content") && ! isNull (getField m "content")) ||
   ! isUndefined (getField m "tool_calls") || ! isUndefined (getField m "function_call"))

/-- Modelled from the claim wording of C6 (refinement reference only). -/
def specRequestValid (body : JSVal) : Bool :=
  typeofObject body && ! isNull body &&
  isString (getField body "model") && truthy (getField body "model") &&
  (match getField body "messages" with
   | .arr l => ! l.isEmpty && l.all specMessageValid
   | _ => false)

/-- Counterexample to claim C6 as stated: a message whose content is null
and which has neither tool_calls nor function_call is accepted by
parseRequest (the source tests content === undefined, so null passes),
while the claim requires rejection. -/
theorem parseRequestC6_counterexample :
    exceptOk (parseRequest (JSVal.obj [("model", JSVal.str "gpt-4"),
      ("messages", JSVal.arr [JSVal.obj [("role", JSVal.str "user"),
        ("content", JSVal.nullv)]])])) = true ∧
    specRequestValid (JSVal.obj [("model", JSVal.str "gpt-4"),
      ("messages", JSVal.arr [JSVal.obj [("role", JSVal.str "user"),
        ("content", JSVal.nullv)]])]) = false := by
  exact ⟨rfl, rfl⟩

/-- Claim C6 (amended): parseRequest accepts a body if and only if it is a
truthy value of typeof object carrying a non-empty string model and a
non-empty messages array in which every message is a truthy object value
with a non-empty string role and at least one of a DEFINED content (null
included), a truthy tool_calls, or a truthy function_call; every other body
makes parseRequest fail with a validation error. -/
theorem parseRequestC6 (body : JSVal) :
    exceptOk (parseRequest body) = requestAccepted body := by
  cases h1 : (truthy body && typeofObject body) with
  | false => simp [parseRequest, requestAccepted, h1, exceptOk_error]
  | true =>
    cases h2 : (truthy (getField body "model") && isString (getField body "model")) with
    | false => simp [parseRequest, requestAccepted, h1, h2, exceptOk_error]
    | true =>
      simp only [parseRequest, requestAccepted, h1, h2, Bool.not_true, Bool.true_and,
        Bool.false_and, if_false]
      cases hm : getField body "messages" with
      | arr l =>
        cases l with
        | nil => rfl
        | cons m ms =>
          have hv := validateMessages_all (m :: ms)
          cases hvm : validateMessages (m :: ms) with
          | ok u =>
            rw [hvm, exceptOk_ok] at hv
            change exceptOk (match validateMessages (m :: ms) with
                | Except.ok _ => Except.ok body
                | Except.error e => Except.error e) =
              (! (m :: ms).isEmpty && (m :: ms).all messageAccepted)
            rw [hvm]
            exact hv
          | error e =>
            rw [hvm, exceptOk_error] at hv
            change exceptOk (match validateMessages (m :: ms) with
                | Except.ok _ => Except.ok body
                | Except.error e => Except.error e) =
              (! (m :: ms).isEmpty && (m :: ms).all messageAccepted)
            rw [hvm]
            exact hv
      | undefinedv => rfl
      | nullv => rfl
      | boolv b => rfl
      | num n => rfl
      | str s => rfl
      | obj fields => rfl

/-- Witness for the amended C6 at a concrete valid body. -/
theorem parseRequestC6_witness :
    exceptOk (parseRequest (JSVal.obj [("model", JSVal.str "gpt-4"),
      ("messages", JSVal.arr [JSVal.obj [("role", JSVal.str "user"),
        ("content", JSVal.str "Hi")]])])) =
    requestAccepted (JSVal.obj [("model", JSVal.str "gpt-4"),
      ("messages", JSVal.arr [JSVal.obj [("role", JSVal.str "user"),
        ("content", JSVal.str "Hi")]])]) :=
  parseRequestC6 (JSVal.obj [("model", JSVal.str "gpt-4"),
    ("messages", JSVal.arr [JSVal.obj [("role", JSVal.str "user"),
      ("content", JSVal.str "Hi")]])])

end Gateway
